import Mathlib

/-!
Shallow embedding of the WebRTC signaling server in `src/main.go`
(repository umdomby/go-webrtc).

The server keeps, per WebSocket connection, a `Client` record holding the
transport handle, an optional `*webrtc.PeerConnection`, a last-activity
timestamp and an outbound-write mutex.  A process-wide `clients` map under a
global mutex is the session registry.  The read loop decodes each inbound
frame with `json.Unmarshal` into `map[string]interface{}` and dispatches on
`data["type"]` using Go type assertions; a liveness goroutine ticks every
30 s, tears the session down when more than 45 s elapsed since the last
activity, and otherwise writes a ping directly on the connection.

The embedding models times in whole seconds as `Nat`, negotiation handles as
`Nat` identifiers allocated from a counter, and the observable side effects
(closes, registry removal, transport writes, log lines) as an explicit event
trace.  A failed Go type assertion (`v.(string)` on a missing or mistyped
field) is modelled as the `Outcome.panicked` result: the panic unwinds the
handler, running the deferred `cleanupClient`.
-/

namespace GoWebRTC

/-- A decoded JSON value, as `encoding/json` produces it into
`map[string]interface{}` (numbers are modelled as integers; none of the
server's branches depends on fractional values). -/
inductive JSON where
  | null : JSON
  | str (s : String) : JSON
  | num (n : Int) : JSON
  | bool (b : Bool) : JSON
  | obj (fields : List (String × JSON)) : JSON
  | arr (elems : List JSON) : JSON

/-- Go map lookup `m[k]`: the first binding of `k`, or `none` (Go's nil
interface value) when the key is absent. -/
def jlookup (m : List (String × JSON)) (k : String) : Option JSON :=
  match m with
  | [] => none
  | (k', v) :: rest => if k' = k then some v else jlookup rest k

/-- Go type assertion `v.(string)`: `some s` when the dynamic value is a
string, `none` (= panic at the call site) otherwise, including on a nil
interface from a missing map key. -/
def goString : Option JSON → Option String
  | some (JSON.str s) => some s
  | _ => none

/-- Go type assertion `v.(float64)`: any JSON number satisfies it. -/
def goNumber : Option JSON → Option Int
  | some (JSON.num n) => some n
  | _ => none

/-- Go type assertion `v.(map[string]interface{})`. -/
def goObject : Option JSON → Option (List (String × JSON))
  | some (JSON.obj fields) => some fields
  | _ => none

/-- Go conversion `uint16(f)` applied to a non-negative float64 that holds an
integer, as in `uint16(candidate["sdpMLineIndex"].(float64))`. -/
def toUInt16Nat (n : Int) : Nat := n.toNat % 65536

/-- `webrtc.ICECandidateInit` as `handleICE` builds it. -/
structure ICECandidateInit where
  candidate : String
  sdpMid : Option String
  sdpMLineIndex : Option Nat
  usernameFragment : Option String
deriving DecidableEq, Repr

/-- An outbound application message written with `WriteJSON`. -/
inductive OutMsg where
  | answer (sdp : String) : OutMsg
  | ice (c : ICECandidateInit) : OutMsg
deriving DecidableEq, Repr

/-- Observable side effects of the server, in program order.  A transport
write records whether the session's outbound mutex (`Client.mu`) is held
around it: `sendJSON` locks, `conn.WriteMessage` in the liveness goroutine
does not. -/
inductive Event where
  | closePC (handle : Nat) : Event
  | closeTransport : Event
  | unregister : Event
  | send (m : OutMsg) (locked : Bool) : Event
  | ping (locked : Bool) : Event
  | forwardCandidate (handle : Nat) (c : ICECandidateInit) : Event
  | logLine (s : String) : Event
deriving DecidableEq, Repr

/-- `some b` when the event is a write on the session's transport, carrying
whether the outbound lock was held; `none` for non-write effects. -/
def Event.transportWrite : Event → Option Bool
  | Event.send _ b => some b
  | Event.ping b => some b
  | _ => none

/-- Per-session state: registry membership (`clients[client]` present),
whether the WebSocket has been closed, the `pc` field, a counter of
negotiation handles created so far (the next handle's identifier), and the
`lastActivity` timestamp in seconds. -/
structure SessionState where
  registered : Bool
  connOpen : Bool
  pc : Option Nat
  pcCreated : Nat
  lastActivity : Nat
deriving DecidableEq, Repr

/-- State of a session right after a successful upgrade: registered in
`clients`, transport open, no peer connection yet. -/
def initState (t0 : Nat) : SessionState :=
  { registered := true, connOpen := true, pc := none, pcCreated := 0,
    lastActivity := t0 }

/-- Results of the external pion/webrtc calls that `handleOffer` and
`handleICE` make, injected so the embedding covers every failure branch of
the source. -/
structure NegotiationEnv where
  newPCFails : Bool
  dataChannelFails : Bool
  setRemoteFails : Bool
  createAnswerFails : Bool
  setLocalFails : Bool
  sendAnswerFails : Bool
  addCandidateFails : Bool
  answerSDP : String
deriving DecidableEq, Repr

/-- The environment in which every external call succeeds. -/
def allOk (sdp : String) : NegotiationEnv :=
  { newPCFails := false, dataChannelFails := false, setRemoteFails := false,
    createAnswerFails := false, setLocalFails := false,
    sendAnswerFails := false, addCandidateFails := false, answerSDP := sdp }

/-- `Client.sendJSON`: a transport write performed under the outbound
mutex. -/
def sendJSON (m : OutMsg) : Event := Event.send m true

/-- `cleanupClient` from `src/main.go`: under the registry mutex, if the
client is still in `clients`, close the peer connection (when non-nil),
close the WebSocket, delete the client from the registry and log; otherwise
do nothing. -/
def cleanupClient (s : SessionState) : SessionState × List Event :=
  if s.registered then
    ({ s with registered := false, connOpen := false },
      (match s.pc with
        | some h => [Event.closePC h]
        | none => []) ++
      [Event.closeTransport, Event.unregister, Event.logLine "Client cleaned up"])
  else (s, [])

/-- `handleOffer` from `src/main.go`: unconditionally create a new
`PeerConnection` and assign it to `client.pc`, create a data channel, set
the remote description, create and set the answer, and send the answer via
`sendJSON`; every failing step logs and returns without closing the
handle. -/
def handleOffer (env : NegotiationEnv) (s : SessionState) (sdp : String) :
    SessionState × List Event :=
  let evs0 := [Event.logLine "Received offer, creating PeerConnection"]
  if env.newPCFails then
    (s, evs0 ++ [Event.logLine "PeerConnection error"])
  else
    let h := s.pcCreated
    let s1 : SessionState := { s with pc := some h, pcCreated := h + 1 }
    let evs1 := evs0 ++
      (if env.dataChannelFails then [Event.logLine "DataChannel error"] else [])
    if env.setRemoteFails then
      (s1, evs1 ++ [Event.logLine "SetRemoteDescription error"])
    else if env.createAnswerFails then
      (s1, evs1 ++ [Event.logLine "CreateAnswer error"])
    else if env.setLocalFails then
      (s1, evs1 ++ [Event.logLine "SetLocalDescription error"])
    else
      let sendEv := sendJSON (OutMsg.answer env.answerSDP)
      if env.sendAnswerFails then
        (s1, evs1 ++ [sendEv, Event.logLine "Send answer error"])
      else (s1, evs1 ++ [sendEv])

/-- The `pc.OnICECandidate` callback installed by `handleOffer`: a nil
candidate (end of enumeration) is ignored; otherwise the candidate is sent
as an `ice` message through `Client.sendJSON`. -/
def onICECandidate (c : Option ICECandidateInit) : List Event :=
  match c with
  | none => []
  | some cand => [sendJSON (OutMsg.ice cand)]

/-- Outcome of one iteration of the read loop's body: continue to the next
frame, or a Go panic from a failed type assertion that unwinds the
handler. -/
inductive Outcome where
  | continueLoop : Outcome
  | panicked : Outcome
deriving DecidableEq, Repr

/-- `handleICE` from `src/main.go`: return immediately when no peer
connection exists; otherwise build an `ICECandidateInit` with the unchecked
type assertions `candidate["candidate"].(string)`,
`candidate["sdpMid"].(string)`, `candidate["sdpMLineIndex"].(float64)` and
`candidate["usernameFragment"].(string)` (each panics when the field is
absent or mistyped), then call `AddICECandidate`, logging a rejection. -/
def handleICE (env : NegotiationEnv) (s : SessionState)
    (candidate : List (String × JSON)) : List Event × Outcome :=
  match s.pc with
  | none => ([], Outcome.continueLoop)
  | some h =>
    match goString (jlookup candidate "candidate") with
    | none => ([], Outcome.panicked)
    | some c =>
      match goString (jlookup candidate "sdpMid") with
      | none => ([], Outcome.panicked)
      | some mid =>
        match goNumber (jlookup candidate "sdpMLineIndex") with
        | none => ([], Outcome.panicked)
        | some idx =>
          match goString (jlookup candidate "usernameFragment") with
          | none => ([], Outcome.panicked)
          | some uf =>
            let init : ICECandidateInit :=
              { candidate := c, sdpMid := some mid,
                sdpMLineIndex := some (toUInt16Nat idx),
                usernameFragment := some uf }
            if env.addCandidateFails then
              ([Event.forwardCandidate h init,
                Event.logLine "AddICECandidate error"], Outcome.continueLoop)
            else
              ([Event.forwardCandidate h init], Outcome.continueLoop)

/-- The `switch data["type"]` of the read loop: `"offer"` asserts
`data["sdp"].(string)` and calls `handleOffer`; `"ice"` asserts
`data["candidate"].(map[string]interface{})` and calls `handleICE`; any
other (or missing, or non-string) `type` falls through silently. -/
def dispatchFrame (env : NegotiationEnv) (s : SessionState)
    (data : List (String × JSON)) : SessionState × List Event × Outcome :=
  match jlookup data "type" with
  | some (JSON.str "offer") =>
    (match goString (jlookup data "sdp") with
      | none => (s, [], Outcome.panicked)
      | some sdpText =>
        ((handleOffer env s sdpText).1, (handleOffer env s sdpText).2,
          Outcome.continueLoop))
  | some (JSON.str "ice") =>
    (match goObject (jlookup data "candidate") with
      | none => (s, [], Outcome.panicked)
      | some cand =>
        (s, (handleICE env s cand).1, (handleICE env s cand).2))
  | _ => (s, [], Outcome.continueLoop)

/-- One successful `ReadMessage` of the read loop, at time `now`, delivering
either an unparseable payload (`none`: `json.Unmarshal` fails, the loop logs
and continues) or a decoded object.  `client.lastActivity` is updated before
decoding.  A panic in the dispatch unwinds `handleWebSocket`, running the
deferred `cleanupClient`. -/
def recvStep (env : NegotiationEnv) (s : SessionState) (now : Nat)
    (frame : Option (List (String × JSON))) : SessionState × List Event :=
  let s1 : SessionState := { s with lastActivity := now }
  match frame with
  | none => (s1, [Event.logLine "JSON unmarshal error"])
  | some data =>
    match (dispatchFrame env s1 data).2.2 with
    | Outcome.continueLoop =>
      ((dispatchFrame env s1 data).1, (dispatchFrame env s1 data).2.1)
    | Outcome.panicked =>
      ((cleanupClient (dispatchFrame env s1 data).1).1,
        (dispatchFrame env s1 data).2.1 ++
          (cleanupClient (dispatchFrame env s1 data).1).2)

/-- `time.Since(client.lastActivity) > 45*time.Second`, in whole seconds. -/
def timedOut (last now : Nat) : Bool := decide (45 < now - last)

/-- One tick of the per-session liveness goroutine: when more than 45 s have
elapsed since the last activity, log and run `cleanupClient`; otherwise
write a ping directly on the connection (not through `sendJSON`), logging a
write failure. -/
def monitorTick (s : SessionState) (now : Nat) (pingOk : Bool) :
    SessionState × List Event :=
  if timedOut s.lastActivity now then
    ((cleanupClient s).1,
      Event.logLine "Connection timeout, closing..." :: (cleanupClient s).2)
  else if pingOk then (s, [Event.ping false])
  else (s, [Event.ping false, Event.logLine "Ping error"])

/-- The interleaved actions that can touch one session's state after it is
registered: a delivered frame, a read error (which returns from the loop and
runs the deferred cleanup), a liveness tick, and a pong (whose handler only
refreshes the activity timestamp). -/
inductive Action where
  | recv (now : Nat) (frame : Option (List (String × JSON))) : Action
  | readError : Action
  | tick (now : Nat) (pingOk : Bool) : Action
  | pong (now : Nat) : Action

/-- The session-level transition function. -/
def step (env : NegotiationEnv) (s : SessionState) (a : Action) :
    SessionState × List Event :=
  match a with
  | Action.recv now frame => recvStep env s now frame
  | Action.readError =>
    ((cleanupClient s).1, Event.logLine "Read error" :: (cleanupClient s).2)
  | Action.tick now pingOk => monitorTick s now pingOk
  | Action.pong now => ({ s with lastActivity := now }, [])

/-- The state reached from `s` after a sequence of actions. -/
def run (env : NegotiationEnv) (s : SessionState) : List Action → SessionState
  | [] => s
  | a :: rest => run env (step env s a).1 rest

/-- The state reached and the concatenated event trace of a sequence of
actions. -/
def runTrace (env : NegotiationEnv) (s : SessionState) :
    List Action → SessionState × List Event
  | [] => (s, [])
  | a :: rest =>
    ((runTrace env (step env s a).1 rest).1,
      (step env s a).2 ++ (runTrace env (step env s a).1 rest).2)

/-! ### Helper lemmas about which fields each operation can touch -/

theorem handleOffer_registered (env : NegotiationEnv) (s : SessionState)
    (sdp : String) : (handleOffer env s sdp).1.registered = s.registered := by
  unfold handleOffer
  split_ifs <;> rfl

theorem handleOffer_connOpen (env : NegotiationEnv) (s : SessionState)
    (sdp : String) : (handleOffer env s sdp).1.connOpen = s.connOpen := by
  unfold handleOffer
  split_ifs <;> rfl

theorem cleanupClient_fst (s : SessionState) :
    (cleanupClient s).1 =
      if s.registered then { s with registered := false, connOpen := false }
      else s := by
  unfold cleanupClient
  split_ifs <;> rfl

theorem dispatchFrame_registered (env : NegotiationEnv) (s : SessionState)
    (data : List (String × JSON)) :
    (dispatchFrame env s data).1.registered = s.registered := by
  unfold dispatchFrame
  repeat' split
  all_goals simp [handleOffer_registered]

theorem dispatchFrame_connOpen (env : NegotiationEnv) (s : SessionState)
    (data : List (String × JSON)) :
    (dispatchFrame env s data).1.connOpen = s.connOpen := by
  unfold dispatchFrame
  repeat' split
  all_goals simp [handleOffer_connOpen]

theorem cleanupClient_flags (s : SessionState) (h : s.registered = s.connOpen) :
    (cleanupClient s).1.registered = (cleanupClient s).1.connOpen := by
  rw [cleanupClient_fst]
  split_ifs <;> simp [h]

theorem step_preserves_flags (env : NegotiationEnv) (a : Action)
    (s : SessionState) (h : s.registered = s.connOpen) :
    (step env s a).1.registered = (step env s a).1.connOpen := by
  cases a with
  | recv now frame =>
    cases frame with
    | none => simpa [step, recvStep] using h
    | some data =>
      have h1 := dispatchFrame_registered env { s with lastActivity := now } data
      have h2 := dispatchFrame_connOpen env { s with lastActivity := now } data
      have h3 : (dispatchFrame env { s with lastActivity := now } data).1.registered
          = (dispatchFrame env { s with lastActivity := now } data).1.connOpen := by
        rw [h1, h2]; exact h
      simp only [step, recvStep]
      split
      · exact h3
      · exact cleanupClient_flags _ h3
  | readError => exact cleanupClient_flags s h
  | tick now pingOk =>
    simp only [step, monitorTick]
    split_ifs
    · exact cleanupClient_flags s h
    · exact h
    · exact h
  | pong now => simpa [step] using h

theorem run_preserves_flags (env : NegotiationEnv) (acts : List Action)
    (s : SessionState) (h : s.registered = s.connOpen) :
    (run env s acts).registered = (run env s acts).connOpen := by
  induction acts generalizing s with
  | nil => simpa [run] using h
  | cons a rest ih =>
    simp only [run]
    exact ih _ (step_preserves_flags env a s h)

/-! ### Claim theorems -/

/-- C3: teardown is idempotent.  For a live session, the first call of
`cleanupClient` closes the negotiation handle (when one exists) exactly
once, closes the transport exactly once and removes the session from the
registry exactly once, and a second call, from any second trigger, performs
no side effects at all and leaves the state unchanged. -/
theorem teardown_idempotent (s : SessionState) (h : s.registered = true) :
    cleanupClient (cleanupClient s).1 = ((cleanupClient s).1, []) ∧
    ((cleanupClient s).2 ++ (cleanupClient (cleanupClient s).1).2).count
      Event.closeTransport = 1 ∧
    ((cleanupClient s).2 ++ (cleanupClient (cleanupClient s).1).2).count
      Event.unregister = 1 ∧
    (∀ hid : Nat, s.pc = some hid →
      ((cleanupClient s).2 ++ (cleanupClient (cleanupClient s).1).2).count
        (Event.closePC hid) = 1) := by
  obtain ⟨reg, conn, pc, created, last⟩ := s
  simp only at h
  subst h
  cases pc with
  | none =>
    refine ⟨rfl, by simp [cleanupClient], by simp [cleanupClient], ?_⟩
    intro hid hpc
    simp at hpc
  | some a =>
    refine ⟨rfl, by simp [cleanupClient], by simp [cleanupClient], ?_⟩
    intro hid hpc
    rw [Option.some.injEq] at hpc
    subst hpc
    simp [cleanupClient]

/-- C3 witness: teardown of a concrete live session with a negotiation
handle. -/
theorem teardown_idempotent_witness :
    cleanupClient (cleanupClient { initState 3 with pc := some 0, pcCreated := 1 }).1
        = ((cleanupClient { initState 3 with pc := some 0, pcCreated := 1 }).1, []) ∧
    ((cleanupClient { initState 3 with pc := some 0, pcCreated := 1 }).2 ++
        (cleanupClient (cleanupClient { initState 3 with pc := some 0, pcCreated := 1 }).1).2).count
      Event.closeTransport = 1 ∧
    ((cleanupClient { initState 3 with pc := some 0, pcCreated := 1 }).2 ++
        (cleanupClient (cleanupClient { initState 3 with pc := some 0, pcCreated := 1 }).1).2).count
      Event.unregister = 1 ∧
    (∀ hid : Nat, ({ initState 3 with pc := some 0, pcCreated := 1 } : SessionState).pc = some hid →
      ((cleanupClient { initState 3 with pc := some 0, pcCreated := 1 }).2 ++
          (cleanupClient (cleanupClient { initState 3 with pc := some 0, pcCreated := 1 }).1).2).count
        (Event.closePC hid) = 1) :=
  teardown_idempotent { initState 3 with pc := some 0, pcCreated := 1 } rfl

/-- C4: along every reachable execution of one session, the session is in
the registry exactly when its transport is still open, and `cleanupClient`
removes the session and closes its transport and negotiation handle in the
one registry-locked invocation. -/
theorem registry_iff_transport_open (env : NegotiationEnv) (t0 : Nat)
    (acts : List Action) :
    ((run env (initState t0) acts).registered = true ↔
      (run env (initState t0) acts).connOpen = true) ∧
    (∀ s : SessionState, s.registered = true →
      (cleanupClient s).1.registered = false ∧
      (cleanupClient s).1.connOpen = false ∧
      Event.closeTransport ∈ (cleanupClient s).2 ∧
      Event.unregister ∈ (cleanupClient s).2 ∧
      ∀ hid : Nat, s.pc = some hid → Event.closePC hid ∈ (cleanupClient s).2) := by
  constructor
  · rw [run_preserves_flags env acts (initState t0) rfl]
  · intro s hs
    refine ⟨?_, ?_, ?_, ?_, ?_⟩
    · rw [cleanupClient_fst]; simp [hs]
    · rw [cleanupClient_fst]; simp [hs]
    · unfold cleanupClient
      simp only [hs, if_true]
      cases s.pc <;> simp
    · unfold cleanupClient
      simp only [hs, if_true]
      cases s.pc <;> simp
    · intro hid hpc
      unfold cleanupClient
      simp [hs, hpc]

/-- C5: a well-formed `ice` frame arriving while no negotiation handle
exists is dropped with no error response, no log line and no state change
other than the activity-timestamp refresh; the session stays open. -/
theorem ice_before_offer_dropped (env : NegotiationEnv) (s : SessionState)
    (now : Nat) (cand : List (String × JSON)) (hpc : s.pc = none) :
    recvStep env s now
        (some [("type", JSON.str "ice"), ("candidate", JSON.obj cand)]) =
      ({ s with lastActivity := now }, []) := by
  simp [recvStep, dispatchFrame, jlookup, goObject, handleICE, hpc]

/-- C5 witness: an early ICE candidate on a freshly registered session. -/
theorem ice_before_offer_dropped_witness :
    recvStep (allOk "a") (initState 0) 7
        (some [("type", JSON.str "ice"),
               ("candidate", JSON.obj [("candidate", JSON.str "c")])]) =
      ({ initState 0 with lastActivity := 7 }, []) :=
  ice_before_offer_dropped (allOk "a") (initState 0) 7
    [("candidate", JSON.str "c")] rfl

/-- C1: what the code actually does on `{"type":"offer"}` with no `sdp`:
the unchecked type assertion `data["sdp"].(string)` panics, the deferred
`cleanupClient` closes the transport and unregisters the session.  The
frame is not dropped as a non-fatal protocol error and the session does not
stay open for a subsequent valid offer. -/
theorem offer_missing_sdp_tears_down_session :
    recvStep (allOk "a") (initState 0) 5 (some [("type", JSON.str "offer")]) =
      ({ registered := false, connOpen := false, pc := none, pcCreated := 0,
          lastActivity := 5 },
        [Event.closeTransport, Event.unregister,
          Event.logLine "Client cleaned up"]) := by
  rfl

/-- C7: what the code actually does on an `ice` message whose candidate
object carries only the required string `candidate` sub-field: with a
negotiation handle present, `handleICE` panics on the unchecked assertion
`candidate["sdpMid"].(string)` instead of forwarding the candidate, and at
the frame level the panic tears the whole session down. -/
theorem ice_missing_optional_fields_panics :
    handleICE (allOk "a") { initState 0 with pc := some 0, pcCreated := 1 }
        [("candidate", JSON.str "candidate:1 1 UDP 2122252543 192.0.2.1 54321 typ host")] =
      ([], Outcome.panicked) ∧
    recvStep (allOk "a") { initState 0 with pc := some 0, pcCreated := 1 } 9
        (some [("type", JSON.str "ice"),
               ("candidate", JSON.obj
                 [("candidate",
                   JSON.str "candidate:1 1 UDP 2122252543 192.0.2.1 54321 typ host")])]) =
      ({ registered := false, connOpen := false, pc := some 0, pcCreated := 1,
          lastActivity := 9 },
        [Event.closePC 0, Event.closeTransport, Event.unregister,
          Event.logLine "Client cleaned up"]) := by
  exact ⟨rfl, rfl⟩

/-- C8: a frame `json.Unmarshal` cannot parse is logged and dropped, the
loop continues, the session stays registered, and a subsequent valid offer
frame on the same session is still dispatched and (with a successful
negotiation) answered. -/
theorem malformed_frame_nonfatal (env : NegotiationEnv) (s : SessionState)
    (now now' : Nat) (sdp : String) (h : s.registered = true) :
    recvStep env s now none =
      ({ s with lastActivity := now }, [Event.logLine "JSON unmarshal error"]) ∧
    (recvStep env s now none).1.registered = true ∧
    sendJSON (OutMsg.answer sdp) ∈
      (recvStep (allOk sdp) { s with lastActivity := now } now'
        (some [("type", JSON.str "offer"), ("sdp", JSON.str "v=0")])).2 := by
  refine ⟨rfl, h, ?_⟩
  simp [recvStep, dispatchFrame, jlookup, goString, handleOffer, allOk, sendJSON]

/-- C8 witness: a malformed frame then a valid offer on a fresh session. -/
theorem malformed_frame_nonfatal_witness :
    recvStep (allOk "ans") (initState 0) 4 none =
      ({ initState 0 with lastActivity := 4 },
        [Event.logLine "JSON unmarshal error"]) ∧
    (recvStep (allOk "ans") (initState 0) 4 none).1.registered = true ∧
    sendJSON (OutMsg.answer "ans") ∈
      (recvStep (allOk "ans") { initState 0 with lastActivity := 4 } 6
        (some [("type", JSON.str "offer"), ("sdp", JSON.str "v=0")])).2 :=
  malformed_frame_nonfatal (allOk "ans") (initState 0) 4 6 "ans" rfl

/-- C2 counterexample: two valid offers on one session.  The second offer is
not rejected: a second negotiation handle (identifier 1) is created and
silently replaces the first (identifier 0), which is never closed — the run
ends with `pcCreated = 2`, refuting "at most one negotiation handle is ever
created". -/
theorem duplicate_offer_creates_second_handle :
    runTrace (allOk "ans") (initState 0)
        [Action.recv 1 (some [("type", JSON.str "offer"), ("sdp", JSON.str "v=0 A")]),
         Action.recv 2 (some [("type", JSON.str "offer"), ("sdp", JSON.str "v=0 B")])] =
      ({ registered := true, connOpen := true, pc := some 1, pcCreated := 2,
          lastActivity := 2 },
        [Event.logLine "Received offer, creating PeerConnection",
          Event.send (OutMsg.answer "ans") true,
          Event.logLine "Received offer, creating PeerConnection",
          Event.send (OutMsg.answer "ans") true]) := by
  rfl

/-- C2 amended: whenever handle creation succeeds, `handleOffer` creates a
fresh negotiation handle on every offer it processes — including a
duplicate offer on a session that already has one — assigns it to
`client.pc` (silently replacing any existing handle), and never closes any
handle. -/
theorem offer_always_creates_new_handle (env : NegotiationEnv)
    (s : SessionState) (sdp : String) (h : env.newPCFails = false) :
    (handleOffer env s sdp).1.pc = some s.pcCreated ∧
    (handleOffer env s sdp).1.pcCreated = s.pcCreated + 1 ∧
    ∀ hid : Nat, Event.closePC hid ∉ (handleOffer env s sdp).2 := by
  refine ⟨?_, ?_, ?_⟩
  · unfold handleOffer
    simp only [h, if_false, Bool.false_eq_true]
    split_ifs <;> rfl
  · unfold handleOffer
    simp only [h, if_false, Bool.false_eq_true]
    split_ifs <;> rfl
  · intro hid
    unfold handleOffer
    simp only [h, if_false, Bool.false_eq_true]
    split_ifs <;> simp [sendJSON]

/-- C2 amended witness: a second offer on a session that already holds
handle 0 creates and installs handle 1. -/
theorem offer_always_creates_new_handle_witness :
    (handleOffer (allOk "ans") { initState 0 with pc := some 0, pcCreated := 1 } "v=0 B").1.pc
        = some ({ initState 0 with pc := some 0, pcCreated := 1 } : SessionState).pcCreated ∧
    (handleOffer (allOk "ans") { initState 0 with pc := some 0, pcCreated := 1 } "v=0 B").1.pcCreated
        = ({ initState 0 with pc := some 0, pcCreated := 1 } : SessionState).pcCreated + 1 ∧
    ∀ hid : Nat, Event.closePC hid ∉
      (handleOffer (allOk "ans") { initState 0 with pc := some 0, pcCreated := 1 } "v=0 B").2 :=
  offer_always_creates_new_handle (allOk "ans")
    { initState 0 with pc := some 0, pcCreated := 1 } "v=0 B" rfl

/-- C10: when an offer creates a negotiation handle but set-remote,
create-answer or set-local fails, `handleOffer` leaves `client.pc` set to
the failed handle and closes nothing; only `cleanupClient` later closes
that handle; and a further offer overwrites the field with a new handle
without releasing the failed one. -/
theorem failed_negotiation_handle_retained (env env2 : NegotiationEnv)
    (s : SessionState) (sdp sdp2 : String)
    (hreg : s.registered = true)
    (hnew : env.newPCFails = false)
    (hfail : env.setRemoteFails = true ∨ env.createAnswerFails = true ∨
      env.setLocalFails = true)
    (hnew2 : env2.newPCFails = false) :
    (handleOffer env s sdp).1.pc = some s.pcCreated ∧
    (∀ hid : Nat, Event.closePC hid ∉ (handleOffer env s sdp).2) ∧
    Event.closePC s.pcCreated ∈ (cleanupClient (handleOffer env s sdp).1).2 ∧
    (handleOffer env2 (handleOffer env s sdp).1 sdp2).1.pc = some (s.pcCreated + 1) ∧
    Event.closePC s.pcCreated ∉ (handleOffer env2 (handleOffer env s sdp).1 sdp2).2 := by
  obtain ⟨h1, h2, h3⟩ := offer_always_creates_new_handle env s sdp hnew
  obtain ⟨g1, g2, g3⟩ :=
    offer_always_creates_new_handle env2 (handleOffer env s sdp).1 sdp2 hnew2
  refine ⟨h1, h3, ?_, ?_, g3 s.pcCreated⟩
  · have hr : (handleOffer env s sdp).1.registered = true := by
      rw [handleOffer_registered]; exact hreg
    unfold cleanupClient
    simp [hr, h1]
  · rw [g1, h2]

/-- C10 witness: a failing set-remote-description on a fresh session,
followed by a second, successful offer. -/
theorem failed_negotiation_handle_retained_witness :
    (handleOffer { allOk "ans" with setRemoteFails := true } (initState 0) "v=0 A").1.pc
        = some (initState 0).pcCreated ∧
    (∀ hid : Nat, Event.closePC hid ∉
      (handleOffer { allOk "ans" with setRemoteFails := true } (initState 0) "v=0 A").2) ∧
    Event.closePC (initState 0).pcCreated ∈
      (cleanupClient
        (handleOffer { allOk "ans" with setRemoteFails := true } (initState 0) "v=0 A").1).2 ∧
    (handleOffer (allOk "ans")
        (handleOffer { allOk "ans" with setRemoteFails := true } (initState 0) "v=0 A").1
        "v=0 B").1.pc = some ((initState 0).pcCreated + 1) ∧
    Event.closePC (initState 0).pcCreated ∉
      (handleOffer (allOk "ans")
        (handleOffer { allOk "ans" with setRemoteFails := true } (initState 0) "v=0 A").1
        "v=0 B").2 :=
  failed_negotiation_handle_retained { allOk "ans" with setRemoteFails := true }
    (allOk "ans") (initState 0) "v=0 A" "v=0 B" rfl rfl (Or.inl rfl) rfl

/-- C9 counterexample: the liveness probe is a transport write performed
without the outbound lock — `conn.WriteMessage` in the monitor goroutine
bypasses `Client.sendJSON`, refuting "all outbound writes are performed
while holding the outbound write lock". -/
theorem ping_write_without_lock :
    monitorTick (initState 0) 10 true = (initState 0, [Event.ping false]) ∧
    Event.transportWrite (Event.ping false) = some false := by
  exact ⟨rfl, rfl⟩

/-- C9 amended: answer sends (from `handleOffer`) and ICE-candidate pushes
(from the `OnICECandidate` callback) go through `sendJSON` and so hold the
session's outbound lock, but the liveness probe ping is written directly on
the connection without the lock. -/
theorem outbound_write_locking (env : NegotiationEnv) (s : SessionState)
    (sdp : String) (c : Option ICECandidateInit) (now : Nat) (pingOk : Bool)
    (hlive : timedOut s.lastActivity now = false) :
    (∀ m : OutMsg, Event.send m false ∉ (handleOffer env s sdp).2) ∧
    (∀ m : OutMsg, Event.send m false ∉ onICECandidate c) ∧
    (∀ lb : Bool, Event.ping lb ∉ (handleOffer env s sdp).2 ∧
      Event.ping lb ∉ onICECandidate c) ∧
    Event.ping false ∈ (monitorTick s now pingOk).2 ∧
    Event.transportWrite (Event.ping false) = some false := by
  refine ⟨?_, ?_, ?_, ?_, rfl⟩
  · intro m
    unfold handleOffer
    split_ifs <;> simp [sendJSON]
  · intro m
    cases c <;> simp [onICECandidate, sendJSON]
  · intro lb
    constructor
    · unfold handleOffer
      split_ifs <;> simp [sendJSON]
    · cases c <;> simp [onICECandidate, sendJSON]
  · unfold monitorTick
    rw [hlive]
    split_ifs <;> simp_all

/-- C9 amended witness: concrete session, offer, candidate and tick. -/
theorem outbound_write_locking_witness :
    (∀ m : OutMsg, Event.send m false ∉ (handleOffer (allOk "ans") (initState 0) "v=0").2) ∧
    (∀ m : OutMsg, Event.send m false ∉ onICECandidate (some
      { candidate := "c", sdpMid := none, sdpMLineIndex := none,
        usernameFragment := none })) ∧
    (∀ lb : Bool, Event.ping lb ∉ (handleOffer (allOk "ans") (initState 0) "v=0").2 ∧
      Event.ping lb ∉ onICECandidate (some
        { candidate := "c", sdpMid := none, sdpMLineIndex := none,
          usernameFragment := none })) ∧
    Event.ping false ∈ (monitorTick (initState 0) 10 true).2 ∧
    Event.transportWrite (Event.ping false) = some false :=
  outbound_write_locking (allOk "ans") (initState 0) "v=0"
    (some { candidate := "c", sdpMid := none, sdpMLineIndex := none,
            usernameFragment := none }) 10 true rfl

/-- C6: with the 30 s monitor interval and the 45 s threshold of
`time.Since(lastActivity) > 45s`, for a session whose last activity is at
time `t` the tick at `30 * ((t + 45) / 30 + 1)` is the first tick after the
threshold is crossed; no earlier tick triggers, that tick does trigger and
tears the session down, and it is never later than `t + 75`. -/
theorem liveness_timeout_window (t : Nat) (s : SessionState) (pingOk : Bool)
    (hlast : s.lastActivity = t) (hreg : s.registered = true) :
    (∀ j : Nat, 30 * (j + 1) < 30 * ((t + 45) / 30 + 1) →
      timedOut t (30 * (j + 1)) = false) ∧
    timedOut t (30 * ((t + 45) / 30 + 1)) = true ∧
    t + 45 < 30 * ((t + 45) / 30 + 1) ∧
    30 * ((t + 45) / 30 + 1) ≤ t + 75 ∧
    (monitorTick s (30 * ((t + 45) / 30 + 1)) pingOk).1.registered = false ∧
    Event.closeTransport ∈ (monitorTick s (30 * ((t + 45) / 30 + 1)) pingOk).2 := by
  have hto : timedOut t (30 * ((t + 45) / 30 + 1)) = true := by
    simp only [timedOut, decide_eq_true_eq]
    omega
  refine ⟨?_, hto, by omega, by omega, ?_, ?_⟩
  · intro j hj
    simp only [timedOut, decide_eq_false_iff_not]
    omega
  · unfold monitorTick
    rw [hlast, hto]
    simp only [if_true]
    rw [cleanupClient_fst]
    simp [hreg]
  · unfold monitorTick
    rw [hlast, hto]
    simp only [if_true]
    unfold cleanupClient
    simp only [hreg, if_true]
    cases s.pc <;> simp

/-- C6 witness: a fresh session last active at time 0 is torn down at the
tick at 60 s. -/
theorem liveness_timeout_window_witness :
    (∀ j : Nat, 30 * (j + 1) < 30 * ((0 + 45) / 30 + 1) →
      timedOut 0 (30 * (j + 1)) = false) ∧
    timedOut 0 (30 * ((0 + 45) / 30 + 1)) = true ∧
    0 + 45 < 30 * ((0 + 45) / 30 + 1) ∧
    30 * ((0 + 45) / 30 + 1) ≤ 0 + 75 ∧
    (monitorTick (initState 0) (30 * ((0 + 45) / 30 + 1)) true).1.registered = false ∧
    Event.closeTransport ∈ (monitorTick (initState 0) (30 * ((0 + 45) / 30 + 1)) true).2 :=
  liveness_timeout_window 0 (initState 0) true rfl rfl

end GoWebRTC
